import Mathlib

/-!
# Desktop capturer source-listing protocol

A shallow embedding of `atom/browser/api/atom_api_desktop_capturer.cc`:
the request validator `GetCapturerTypes`, the entry point
`DesktopCapturer::StartHandling`, the five empty observer methods and
`DesktopCapturer::OnRefreshFinished`.

The controller object is a record holding `media_list_` and a log of the
externally visible effects it has performed, in program order.  Code that can
fault (a write through a null `bool*`, a call through an empty `scoped_ptr`)
returns `Except Fault`.
-/

namespace DesktopCapturer

/-! ## Data model -/

/-- Width and height of a `gfx::Size`. -/
structure Size where
  width : Int
  height : Int
deriving DecidableEq, Repr

/-- One entry of a desktop media list (`DesktopMediaList::Source`): the id token,
the display name and the thumbnail, the latter represented by its dimensions. -/
structure Source where
  id : String
  name : String
  thumbnail : Size
deriving DecidableEq, Repr

/-- The two reads `StartHandling` performs on its `mate::Dictionary` argument.
Each field is the outcome of one `args.Get(key, &out)` call: `none` when `Get`
returns false (the key is missing or its value does not convert, and `out` keeps
its previous value), `some v` when it returns true after storing `v` in `out`. -/
structure Dictionary where
  types : Option (List String)
  thumbnailSize : Option Size
deriving DecidableEq, Repr

/-- Ways in which the modelled code can fault. -/
inductive Fault where
  | nullDereference
  | indexOutOfRange
  | outOfFuel
deriving DecidableEq, Repr

/-- The two `bool` locals of `StartHandling` whose addresses are passed down. -/
inductive Slot where
  | show_screens
  | show_windows
deriving DecidableEq, Repr

/-- A `bool*` value: `none` is the null pointer, `some slot` the address of a local. -/
abbrev BoolPtr := Option Slot

/-- The stack frame of `StartHandling` holding the two flags. -/
structure Frame where
  show_screens : Bool
  show_windows : Bool
deriving DecidableEq, Repr

/-- The assignment `*p = v`; writing through the null pointer faults. -/
def Frame.store (f : Frame) : BoolPtr → Bool → Except Fault Frame
  | none, _ => .error .nullDereference
  | some .show_screens, v => .ok { f with show_screens := v }
  | some .show_windows, v => .ok { f with show_windows := v }

/-- The expression `!p` on a pointer operand: true exactly when `p` is null.
The pointee is not read. -/
def BoolPtr.lnot (p : BoolPtr) : Bool := p.isNone

/-- A handle returned by `webrtc::ScreenCapturer::Create`. -/
structure ScreenCapturer where
deriving DecidableEq, Repr

/-- A handle returned by `webrtc::WindowCapturer::Create`. -/
structure WindowCapturer where
deriving DecidableEq, Repr

/-- What the two capturer factories yield when called: the result of
`webrtc::ScreenCapturer::Create(options)` and of `webrtc::WindowCapturer::Create(options)`,
each a handle or the null pointer (`none`).  The factories are outside this file, so
their results are inputs of the model. -/
structure Factories where
  screen : Option ScreenCapturer
  window : Option WindowCapturer
deriving DecidableEq, Repr

/-- Modelled from the spec: the `NativeDesktopMediaList` class, whose definition is
not part of this file.  It is bound to the two capturer handles given to its
constructor, holds the ordered sequence of sources (empty at construction), the
thumbnail size last applied with `SetThumbnailSize` (`none` before the first call)
and whether `StartUpdating` has registered an observer. -/
structure NativeDesktopMediaList where
  screen_capturer : Option ScreenCapturer
  window_capturer : Option WindowCapturer
  thumbnail_size : Option Size
  observing : Bool
  sources : List Source
deriving DecidableEq, Repr

/-- The call `GetSourceCount()`; the count is taken to fit an `int`. -/
def NativeDesktopMediaList.GetSourceCount (ml : NativeDesktopMediaList) : Nat :=
  ml.sources.length

/-- The call `GetSource(index)`; `none` stands for an index outside the list. -/
def NativeDesktopMediaList.GetSource (ml : NativeDesktopMediaList) (index : Nat) :
    Option Source :=
  ml.sources[index]?

/-- Externally visible actions of the controller, logged in program order. -/
inductive Effect where
  | createScreenCapturer
  | createWindowCapturer
  | newMediaList (screen : Bool) (window : Bool)
  | deleteMediaList
  | setThumbnailSize (size : Size)
  | startUpdating
  | getSource (index : Nat)
  | emit (name : String) (errorMessage : String) (sources : List Source)
deriving DecidableEq, Repr

/-- The controller object: its `media_list_` member and the effects so far. -/
structure Controller where
  media_list_ : Option NativeDesktopMediaList
  log : List Effect
deriving DecidableEq, Repr

/-- An event delivered to the caller through `Emit`. -/
structure Event where
  name : String
  errorMessage : String
  sources : List Source
deriving DecidableEq, Repr

/-- The event carried by a logged effect, if it is an `Emit`. -/
def Effect.toEvent : Effect → Option Event
  | .emit name errorMessage sources => some ⟨name, errorMessage, sources⟩
  | _ => none

/-- All events the controller has delivered to the caller, oldest first. -/
def emitted (self : Controller) : List Event :=
  self.log.filterMap Effect.toEvent

/-- A freshly constructed controller (`DesktopCapturer::DesktopCapturer()`). -/
def Controller.create : Controller :=
  { media_list_ := none, log := [] }

/-! ## The code -/

def kThumbnailWidth : Int := 150

def kThumbnailHeight : Int := 150

/-- The `for` loop of `GetCapturerTypes` over the requested type strings. -/
def scanSourceTypes (show_windows show_screens : BoolPtr) :
    List String → Frame → Except Fault Frame
  | [], f => .ok f
  | source_type :: rest, f =>
    if source_type = "screen" then
      match f.store show_screens true with
      | .error e => .error e
      | .ok f1 => scanSourceTypes show_windows show_screens rest f1
    else if source_type = "window" then
      match f.store show_windows true with
      | .error e => .error e
      | .ok f1 => scanSourceTypes show_windows show_screens rest f1
    else scanSourceTypes show_windows show_screens rest f

/-- The function `GetCapturerTypes(args, show_windows, show_screens)`.  The result
pairs the returned `bool` with the caller's frame after the writes.  The returned
expression is `!show_windows && !show_screens ? false : true`, where both operands
of `!` are the pointers themselves. -/
def GetCapturerTypes (args : Dictionary) (show_windows show_screens : BoolPtr)
    (f : Frame) : Except Fault (Bool × Frame) :=
  match f.store show_windows false with
  | .error e => .error e
  | .ok f1 =>
    match f1.store show_screens false with
    | .error e => .error e
    | .ok f2 =>
      match args.types with
      | none => .ok (false, f2)
      | some sources =>
        match scanSourceTypes show_windows show_screens sources f2 with
        | .error e => .error e
        | .ok f3 =>
          .ok (if (BoolPtr.lnot show_windows && BoolPtr.lnot show_screens) then false
               else true, f3)

/-- The call `Emit(name, errorMessage, sources)`. -/
def Emit (self : Controller) (name errorMessage : String) (sources : List Source) :
    Controller :=
  { self with log := self.log ++ [.emit name errorMessage sources] }

/-- Appends effects to the log. -/
def Controller.record (self : Controller) (es : List Effect) : Controller :=
  { self with log := self.log ++ es }

/-- The call `media_list_.reset(p)`: the previously owned list, if any, is deleted. -/
def Controller.resetMediaList (self : Controller) (p : Option NativeDesktopMediaList) :
    Controller :=
  { media_list_ := p
    log := self.log ++ (if self.media_list_.isSome then [Effect.deleteMediaList] else []) }

/-- The method `DesktopCapturer::StartHandling(args)`.  The capture options built by
`CreateDefault` (and `set_disable_effects(false)` under `OS_WIN`) only travel to the
two factories and are not represented.  `made` holds what each factory yields if it
is called; the result, handle or null, is passed to the list constructor untested. -/
def StartHandling (made : Factories) (self : Controller) (args : Dictionary) :
    Except Fault Controller :=
  match GetCapturerTypes args (some .show_windows) (some .show_screens)
      { show_screens := false, show_windows := false } with
  | .error e => .error e
  | .ok (false, _) =>
    .ok (Emit self "handling-finished" "Invalid options." [])
  | .ok (true, frame) =>
    let screen_capturer : Option ScreenCapturer :=
      if frame.show_screens then made.screen else none
    let self1 := self.record (if frame.show_screens then [.createScreenCapturer] else [])
    let window_capturer : Option WindowCapturer :=
      if frame.show_windows then made.window else none
    let self2 := self1.record (if frame.show_windows then [.createWindowCapturer] else [])
    let self3 := self2.record [.newMediaList screen_capturer.isSome window_capturer.isSome]
    let self4 := self3.resetMediaList (some
      { screen_capturer := screen_capturer
        window_capturer := window_capturer
        thumbnail_size := none
        observing := false
        sources := [] })
    let thumbnail_size0 : Size := ⟨kThumbnailWidth, kThumbnailHeight⟩
    let thumbnail_size : Size :=
      match args.thumbnailSize with
      | some size => size
      | none => thumbnail_size0
    match self4.media_list_ with
    | none => .error .nullDereference
    | some ml =>
      let self5 : Controller :=
        { media_list_ := some { ml with thumbnail_size := some thumbnail_size }
          log := self4.log ++ [.setThumbnailSize thumbnail_size] }
      match self5.media_list_ with
      | none => .error .nullDereference
      | some ml1 =>
        .ok { media_list_ := some { ml1 with observing := true }
              log := self5.log ++ [.startUpdating] }

/-- The method `DesktopCapturer::OnSourceAdded(index)`: the body is empty. -/
def OnSourceAdded (self : Controller) (_index : Int) : Controller := self

/-- The method `DesktopCapturer::OnSourceRemoved(index)`: the body is empty. -/
def OnSourceRemoved (self : Controller) (_index : Int) : Controller := self

/-- The method `DesktopCapturer::OnSourceMoved(old_index, new_index)`: the body is empty. -/
def OnSourceMoved (self : Controller) (_old_index _new_index : Int) : Controller := self

/-- The method `DesktopCapturer::OnSourceNameChanged(index)`: the body is empty. -/
def OnSourceNameChanged (self : Controller) (_index : Int) : Controller := self

/-- The method `DesktopCapturer::OnSourceThumbnailChanged(index)`: the body is empty. -/
def OnSourceThumbnailChanged (self : Controller) (_index : Int) : Controller := self

/-- The loop `for (int i = 0; i < media_list_->GetSourceCount(); ++i)
sources.push_back(media_list_->GetSource(i));` started at index `i` with the
vector `sources` and the effect log `log`.  Each iteration spends one unit of fuel. -/
def copySources (ml : NativeDesktopMediaList) :
    Nat → Nat → List Source → List Effect → Except Fault (List Source × List Effect)
  | 0, _, _, _ => .error .outOfFuel
  | fuel + 1, i, sources, log =>
    if i < ml.GetSourceCount then
      match ml.GetSource i with
      | none => .error .indexOutOfRange
      | some source => copySources ml fuel (i + 1) (sources ++ [source]) (log ++ [.getSource i])
    else .ok (sources, log)

/-- The method `DesktopCapturer::OnRefreshFinished()`.  The result pairs the returned
`bool` with the controller afterwards.  `media_list_` is called through without a
test, so an empty `media_list_` faults. -/
def OnRefreshFinished (self : Controller) : Except Fault (Bool × Controller) :=
  match self.media_list_ with
  | none => .error .nullDereference
  | some ml =>
    match copySources ml (ml.GetSourceCount + 1) 0 [] self.log with
    | .error e => .error e
    | .ok (sources, log) =>
      let self1 : Controller := { self with log := log }
      let self2 := self1.resetMediaList none
      .ok (false, Emit self2 "handling-finished" "" sources)

/-! ## Traces -/

/-- One step of a session: a call of `startHandling` by the caller (together with
what the capturer factories yield during that call), a change the
backend makes to the contents of the list the controller owns, or one of the six
observer notifications. -/
inductive Step where
  | startHandling (made : Factories) (args : Dictionary)
  | backendUpdate (sources : List Source)
  | sourceAdded (index : Int)
  | sourceRemoved (index : Int)
  | sourceMoved (old_index : Int) (new_index : Int)
  | sourceNameChanged (index : Int)
  | sourceThumbnailChanged (index : Int)
  | refreshFinished
deriving DecidableEq, Repr

/-- The five source notifications. -/
def Step.isNotification : Step → Bool
  | .sourceAdded _ => true
  | .sourceRemoved _ => true
  | .sourceMoved _ _ => true
  | .sourceNameChanged _ => true
  | .sourceThumbnailChanged _ => true
  | _ => false

/-- Backend activity that precedes the refresh-complete signal: the five source
notifications and the backend's own changes to the list contents. -/
def Step.isBackendActivity : Step → Bool
  | .backendUpdate _ => true
  | s => s.isNotification

/-- Modelled from the spec: the backend replacing the contents of the list owned by
the controller (the list is mutated by the backend, never by the controller).
Without an owned list there is nothing to change. -/
def backendUpdate (self : Controller) (sources : List Source) : Controller :=
  match self.media_list_ with
  | none => self
  | some ml => { self with media_list_ := some { ml with sources := sources } }

/-- Executes one step. -/
def step (self : Controller) : Step → Except Fault Controller
  | .startHandling made args => StartHandling made self args
  | .backendUpdate sources => .ok (backendUpdate self sources)
  | .sourceAdded index => .ok (OnSourceAdded self index)
  | .sourceRemoved index => .ok (OnSourceRemoved self index)
  | .sourceMoved old_index new_index => .ok (OnSourceMoved self old_index new_index)
  | .sourceNameChanged index => .ok (OnSourceNameChanged self index)
  | .sourceThumbnailChanged index => .ok (OnSourceThumbnailChanged self index)
  | .refreshFinished =>
    match OnRefreshFinished self with
    | .error e => .error e
    | .ok (_, self1) => .ok self1

/-- Executes a sequence of steps, stopping at the first fault. -/
def run (self : Controller) : List Step → Except Fault Controller
  | [] => .ok self
  | s :: rest =>
    match step self s with
    | .error e => .error e
    | .ok self1 => run self1 rest

/-! ## Derived notions used in the statements -/

/-- The thumbnail size a request asks for: the caller's size when the dictionary
read succeeds, the default constants otherwise. -/
def requestedSize (args : Dictionary) : Size :=
  match args.thumbnailSize with
  | some size => size
  | none => ⟨kThumbnailWidth, kThumbnailHeight⟩

/-- The handle a passing `StartHandling` call passes to the list constructor for one
capturer kind: what the factory yields when the kind is requested, null otherwise. -/
def passedHandle {α : Type} (requested : Bool) (yielded : Option α) : Option α :=
  if requested then yielded else none

/-- The media list a passing `StartHandling` call leaves in `media_list_`, given the
two handles passed to its constructor. -/
def startedList (screen : Option ScreenCapturer) (window : Option WindowCapturer)
    (size : Size) : NativeDesktopMediaList :=
  { screen_capturer := screen
    window_capturer := window
    thumbnail_size := some size
    observing := true
    sources := [] }

/-- The effects a passing `StartHandling` call appends to the log, in order: `screen`
and `window` tell which factories are called, `screenHandle` and `windowHandle`
whether the handles passed to the list constructor are non-null, and `hadList`
whether a list was owned when the call was made. -/
def startedEffects (screen window screenHandle windowHandle hadList : Bool)
    (size : Size) : List Effect :=
  (if screen then [Effect.createScreenCapturer] else []) ++
  (if window then [Effect.createWindowCapturer] else []) ++
  [Effect.newMediaList screenHandle windowHandle] ++
  (if hadList then [Effect.deleteMediaList] else []) ++
  [Effect.setThumbnailSize size, Effect.startUpdating]

/-- The controller owns a list that is bound and configured like `ml`; only the
contents of the list may differ. -/
def ownsListLike (self : Controller) (ml : NativeDesktopMediaList) : Prop :=
  ∃ sources, self.media_list_ = some { ml with sources := sources }

/-- A request names at least one of the two recognised types. -/
def hasValidType (args : Dictionary) : Bool :=
  match args.types with
  | some types => decide ("screen" ∈ types) || decide ("window" ∈ types)
  | none => false

/-- The session `startHandling args`, then the backend activity `ns`, then
`refreshFinished`, run from `self`, does not fault and emits exactly one event: none
up to and including the last step of `ns`, and at the `refreshFinished` step the
event `handling-finished` with the empty error message and the contents `live` of
the list at that moment. -/
def emitsOnceAtRefresh (made : Factories) (self : Controller) (args : Dictionary)
    (ns : List Step) : Prop :=
  ∃ mid live fin,
    run self (Step.startHandling made args :: ns) = .ok mid ∧
    emitted mid = emitted self ∧
    mid.media_list_ = some live ∧
    run self (Step.startHandling made args :: (ns ++ [Step.refreshFinished])) = .ok fin ∧
    emitted fin = emitted self ++ [⟨"handling-finished", "", live.sources⟩]

/-- The step `startHandling args` run from `self`, followed by the backend activity
`ns`, does not fault and emits exactly one event, at the `startHandling` step: the
event `handling-finished` with the message "Invalid options." and no sources. -/
def emitsOnceAtStart (made : Factories) (self : Controller) (args : Dictionary)
    (ns : List Step) : Prop :=
  ∃ rejected fin,
    run self [Step.startHandling made args] = .ok rejected ∧
    emitted rejected = emitted self ++ [⟨"handling-finished", "Invalid options.", []⟩] ∧
    run self (Step.startHandling made args :: ns) = .ok fin ∧
    emitted fin = emitted rejected

/-! ## Sample data -/

/-- The first screen of the two-screen backend. -/
def screen1 : Source := ⟨"screen:0", "Screen 1", ⟨150, 150⟩⟩

/-- The second screen of the two-screen backend. -/
def screen2 : Source := ⟨"screen:1", "Screen 2", ⟨150, 150⟩⟩

/-- The request `{types: ["screen"]}`. -/
def requestScreens : Dictionary := { types := some ["screen"], thumbnailSize := none }

/-- The request `{types: ["tab"]}`. -/
def requestTab : Dictionary := { types := some ["tab"], thumbnailSize := none }

/-- A request without a readable `types` field. -/
def requestNoTypes : Dictionary := { types := none, thumbnailSize := none }

/-- The request `{types: ["window", "tab", "window"], thumbnailSize: {width: 64, height: 64}}`. -/
def requestSmallWindows : Dictionary :=
  { types := some ["window", "tab", "window"], thumbnailSize := some ⟨64, 64⟩ }

/-- Both factories yield a handle. -/
def bothFactories : Factories := { screen := some {}, window := some {} }

/-- The screen capturer factory yields null, the window capturer factory a handle. -/
def noScreenFactory : Factories := { screen := none, window := some {} }

/-- A media list bound to a screen capturer that holds the two screens. -/
def twoScreens : NativeDesktopMediaList :=
  { startedList (some {}) none ⟨150, 150⟩ with sources := [screen1, screen2] }

/-- An Active controller owning `twoScreens`. -/
def activeTwoScreens : Controller :=
  { media_list_ := some twoScreens
    log := startedEffects true false true false false ⟨150, 150⟩ }

/-- A controller that has completed one session with the two-screen backend. -/
def completedTwoScreens : Controller :=
  { media_list_ := none
    log := startedEffects true false true false false ⟨150, 150⟩ ++
      [.getSource 0, .getSource 1, .deleteMediaList,
       .emit "handling-finished" "" [screen1, screen2]] }

/-! ## Auxiliary facts about the code -/

theorem scanSourceTypes_locals (sources : List String) (f : Frame) :
    scanSourceTypes (some .show_windows) (some .show_screens) sources f =
      .ok { show_screens := f.show_screens || decide ("screen" ∈ sources)
            show_windows := f.show_windows || decide ("window" ∈ sources) } := by
  induction sources generalizing f with
  | nil => simp [scanSourceTypes]
  | cons t rest ih =>
    by_cases h1 : t = "screen"
    · subst h1
      simp [scanSourceTypes, Frame.store, ih]
    · by_cases h2 : t = "window"
      · subst h2
        simp [scanSourceTypes, Frame.store, ih]
      · have h3 : ¬ "screen" = t := fun h => h1 h.symm
        have h4 : ¬ "window" = t := fun h => h2 h.symm
        simp [scanSourceTypes, ih, h1, h2, h3, h4]

theorem GetCapturerTypes_locals (args : Dictionary) (f : Frame) :
    GetCapturerTypes args (some .show_windows) (some .show_screens) f =
      match args.types with
      | none => .ok (false, { show_screens := false, show_windows := false })
      | some sources =>
        .ok (true, { show_screens := decide ("screen" ∈ sources)
                     show_windows := decide ("window" ∈ sources) }) := by
  cases h : args.types with
  | none => simp [GetCapturerTypes, Frame.store, h]
  | some sources =>
    simp [GetCapturerTypes, Frame.store, h, scanSourceTypes_locals, BoolPtr.lnot]

theorem StartHandling_accepted (made : Factories) (self : Controller)
    (args : Dictionary) (sources : List String) (h : args.types = some sources) :
    StartHandling made self args = .ok
      { media_list_ := some (startedList
          (passedHandle (decide ("screen" ∈ sources)) made.screen)
          (passedHandle (decide ("window" ∈ sources)) made.window) (requestedSize args))
        log := self.log ++ startedEffects (decide ("screen" ∈ sources))
          (decide ("window" ∈ sources))
          (passedHandle (decide ("screen" ∈ sources)) made.screen).isSome
          (passedHandle (decide ("window" ∈ sources)) made.window).isSome
          self.media_list_.isSome (requestedSize args) } := by
  unfold StartHandling
  rw [GetCapturerTypes_locals, h]
  by_cases hs : "screen" ∈ sources <;> by_cases hw : "window" ∈ sources <;>
    cases hm : self.media_list_ <;>
    simp [hs, hw, hm, Controller.record, Controller.resetMediaList, startedList,
      startedEffects, requestedSize, passedHandle]

theorem StartHandling_rejected (made : Factories) (self : Controller)
    (args : Dictionary) (h : args.types = none) :
    StartHandling made self args =
      .ok (Emit self "handling-finished" "Invalid options." []) := by
  unfold StartHandling
  rw [GetCapturerTypes_locals, h]

theorem emitted_startedEffects (screen window screenHandle windowHandle hadList : Bool)
    (size : Size) :
    (startedEffects screen window screenHandle windowHandle hadList size).filterMap
      Effect.toEvent = [] := by
  cases screen <;> cases window <;> cases hadList <;>
    simp [startedEffects, Effect.toEvent]

theorem copySources_eq (ml : NativeDesktopMediaList) (fuel i : Nat)
    (acc : List Source) (log : List Effect)
    (hi : i ≤ ml.sources.length) (hf : ml.sources.length - i < fuel) :
    copySources ml fuel i acc log =
      .ok (acc ++ ml.sources.drop i,
           log ++ (List.range' i (ml.sources.length - i)).map Effect.getSource) := by
  induction fuel generalizing i acc log with
  | zero => omega
  | succ fuel ih =>
    unfold copySources
    by_cases hlt : i < ml.sources.length
    · have hget : ml.GetSource i = some ml.sources[i] := by
        simp [NativeDesktopMediaList.GetSource, List.getElem?_eq_getElem hlt]
      have hdrop : ml.sources.drop i = ml.sources[i] :: ml.sources.drop (i + 1) :=
        List.drop_eq_getElem_cons hlt
      have hlen : ml.sources.length - i = (ml.sources.length - (i + 1)) + 1 := by omega
      simp only [NativeDesktopMediaList.GetSourceCount, hlt, if_true, hget]
      rw [ih (i + 1) _ _ (by omega) (by omega), hdrop]
      conv_rhs => rw [hlen, List.range'_succ]
      simp
    · have heq : i = ml.sources.length := by omega
      subst heq
      simp [NativeDesktopMediaList.GetSourceCount]

theorem OnRefreshFinished_active (self : Controller) (ml : NativeDesktopMediaList)
    (h : self.media_list_ = some ml) :
    OnRefreshFinished self = .ok (false,
      { media_list_ := none
        log := self.log ++ (List.range ml.GetSourceCount).map Effect.getSource ++
          [Effect.deleteMediaList, Effect.emit "handling-finished" "" ml.sources] }) := by
  unfold OnRefreshFinished
  rw [h]
  simp only [NativeDesktopMediaList.GetSourceCount]
  rw [copySources_eq ml _ 0 [] self.log (by omega) (by omega)]
  simp [Controller.resetMediaList, Emit, h, List.range_eq_range']

theorem OnRefreshFinished_empty (self : Controller) (h : self.media_list_ = none) :
    OnRefreshFinished self = .error .nullDereference := by
  unfold OnRefreshFinished
  rw [h]

theorem emitted_Emit (self : Controller) (name errorMessage : String)
    (sources : List Source) :
    emitted (Emit self name errorMessage sources) =
      emitted self ++ [⟨name, errorMessage, sources⟩] := by
  simp [emitted, Emit, Effect.toEvent]

theorem run_append (self : Controller) (xs ys : List Step) :
    run self (xs ++ ys) =
      match run self xs with
      | .error e => .error e
      | .ok mid => run mid ys := by
  induction xs generalizing self with
  | nil => simp [run]
  | cons x xs ih =>
    simp only [List.cons_append, run]
    cases step self x with
    | error e => rfl
    | ok self1 => exact ih self1

theorem step_notification (self : Controller) (n : Step)
    (h : n.isNotification = true) : step self n = .ok self := by
  cases n <;> simp_all [Step.isNotification, step, OnSourceAdded, OnSourceRemoved,
    OnSourceMoved, OnSourceNameChanged, OnSourceThumbnailChanged]

theorem run_notifications (self : Controller) (ns : List Step)
    (h : ∀ n ∈ ns, n.isNotification = true) : run self ns = .ok self := by
  induction ns with
  | nil => rfl
  | cons n ns ih =>
    have hn : n.isNotification = true := h n (List.mem_cons_self _ _)
    have hrest : ∀ m ∈ ns, m.isNotification = true :=
      fun m hm => h m (List.mem_cons_of_mem _ hm)
    simp only [run, step_notification self n hn]
    exact ih hrest

theorem step_backendActivity (self : Controller) (n : Step)
    (h : n.isBackendActivity = true) :
    ∃ self1, step self n = .ok self1 ∧ self1.log = self.log ∧
      (self.media_list_ = none → self1.media_list_ = none) ∧
      ∀ ml, ownsListLike self ml → ownsListLike self1 ml := by
  by_cases hn : n.isNotification = true
  · exact ⟨self, step_notification self n hn, rfl, fun h0 => h0, fun _ hml => hml⟩
  · cases n <;> simp_all [Step.isBackendActivity, Step.isNotification]
    rename_i sources
    refine ⟨backendUpdate self sources, rfl, ?_, ?_, ?_⟩
    · unfold backendUpdate
      cases self.media_list_ <;> rfl
    · intro h0
      simp [backendUpdate, h0]
    · rintro ml ⟨old, hold⟩
      exact ⟨sources, by simp [backendUpdate, hold]⟩

theorem run_backendActivity (self : Controller) (ns : List Step)
    (h : ∀ n ∈ ns, n.isBackendActivity = true) :
    ∃ fin, run self ns = .ok fin ∧ fin.log = self.log ∧
      (self.media_list_ = none → fin.media_list_ = none) ∧
      ∀ ml, ownsListLike self ml → ownsListLike fin ml := by
  induction ns generalizing self with
  | nil => exact ⟨self, rfl, rfl, fun h0 => h0, fun _ hml => hml⟩
  | cons n ns ih =>
    obtain ⟨self1, hstep, hlog, hnone, hown⟩ :=
      step_backendActivity self n (h n (List.mem_cons_self _ _))
    obtain ⟨fin, hrun, hlog2, hnone2, hown2⟩ :=
      ih self1 (fun m hm => h m (List.mem_cons_of_mem _ hm))
    refine ⟨fin, ?_, hlog2.trans hlog, fun h0 => hnone2 (hnone h0),
      fun ml hml => hown2 ml (hown ml hml)⟩
    simp only [run, hstep]
    exact hrun

/-! ## Request validation -/

/-- C2, the code at the failing input: for the options `{types: ["tab"]}`, which name
neither "screen" nor "window", `GetCapturerTypes` called as `StartHandling` calls it
returns true, with both flags left false. -/
theorem GetCapturerTypes_accepts_tab :
    GetCapturerTypes requestTab (some .show_windows) (some .show_screens)
      { show_screens := false, show_windows := false } =
      .ok (true, { show_screens := false, show_windows := false }) := by
  rfl

/-- C1, the code at the failing input: for the request `{types: ["tab"]}` on a new
controller, whatever the factories would yield, `StartHandling` emits no event; it
constructs a media list bound to no capturer, applies the default thumbnail size to
it and starts its enumeration. -/
theorem StartHandling_tab_emits_nothing (made : Factories) :
    StartHandling made Controller.create requestTab =
      .ok { media_list_ := some (startedList none none ⟨150, 150⟩)
            log := [.newMediaList false false, .setThumbnailSize ⟨150, 150⟩,
                    .startUpdating] } ∧
    emitted { media_list_ := some (startedList none none ⟨150, 150⟩)
              log := [.newMediaList false false, .setThumbnailSize ⟨150, 150⟩,
                      .startUpdating] } = [] := by
  exact ⟨rfl, rfl⟩

/-! ## Finalisation -/

/-- C3: when `OnRefreshFinished` is called on a controller that owns a media list,
it returns normally and emits exactly one further event, `handling-finished` with
the empty error message, whose sources are the sources of the list: as many as
`GetSourceCount` reports, the one at each index being `GetSource` of that index, so
the sequence is the list's own, unsorted and unfiltered.  An empty list is included. -/
theorem OnRefreshFinished_emits_list_in_order (self : Controller)
    (ml : NativeDesktopMediaList) (h : self.media_list_ = some ml) :
    ∃ fin e, OnRefreshFinished self = .ok (false, fin) ∧
      emitted fin = emitted self ++ [e] ∧
      e.name = "handling-finished" ∧ e.errorMessage = "" ∧
      e.sources.length = ml.GetSourceCount ∧
      (∀ i, i < ml.GetSourceCount → e.sources[i]? = ml.GetSource i) ∧
      e.sources = ml.sources := by
  refine ⟨_, ⟨"handling-finished", "", ml.sources⟩,
    OnRefreshFinished_active self ml h, ?_, rfl, rfl, rfl, fun _ _ => rfl, rfl⟩
  simp [emitted, Effect.toEvent, List.filterMap_append]

/-- C3 at the two-screen backend: the event carries "Screen 1" and "Screen 2" in
that order. -/
theorem OnRefreshFinished_emits_list_in_order_witness :
    activeTwoScreens.media_list_ = some twoScreens ∧
    twoScreens.sources = [screen1, screen2] ∧
    ∃ fin e, OnRefreshFinished activeTwoScreens = .ok (false, fin) ∧
      emitted fin = emitted activeTwoScreens ++ [e] ∧
      e.name = "handling-finished" ∧ e.errorMessage = "" ∧
      e.sources.length = twoScreens.GetSourceCount ∧
      (∀ i, i < twoScreens.GetSourceCount → e.sources[i]? = twoScreens.GetSource i) ∧
      e.sources = twoScreens.sources :=
  ⟨rfl, rfl, OnRefreshFinished_emits_list_in_order activeTwoScreens twoScreens rfl⟩

/-- C10: on a controller that owns a media list, `OnRefreshFinished` returns false
and leaves `media_list_` empty, and its effects come in this order: the sources are
read from the list at the indices 0 to n-1, then the list is deleted, then the
event is emitted. -/
theorem OnRefreshFinished_releases_then_emits (self : Controller)
    (ml : NativeDesktopMediaList) (h : self.media_list_ = some ml) :
    ∃ fin, OnRefreshFinished self = .ok (false, fin) ∧
      fin.media_list_ = none ∧
      fin.log = self.log ++ (List.range ml.GetSourceCount).map Effect.getSource ++
        [Effect.deleteMediaList] ++
        [Effect.emit "handling-finished" "" ml.sources] := by
  refine ⟨_, OnRefreshFinished_active self ml h, rfl, ?_⟩
  simp

/-- C10 at the two-screen backend. -/
theorem OnRefreshFinished_releases_then_emits_witness :
    activeTwoScreens.media_list_ = some twoScreens ∧
    ∃ fin, OnRefreshFinished activeTwoScreens = .ok (false, fin) ∧
      fin.media_list_ = none ∧
      fin.log = activeTwoScreens.log ++
        (List.range twoScreens.GetSourceCount).map Effect.getSource ++
        [Effect.deleteMediaList] ++
        [Effect.emit "handling-finished" "" twoScreens.sources] :=
  ⟨rfl, OnRefreshFinished_releases_then_emits activeTwoScreens twoScreens rfl⟩

/-- C9, the claim refuted: on a new controller, which owns no list,
`OnRefreshFinished` faults on the null dereference; and a second `refreshFinished`
delivered after a completed session faults in the same way. -/
theorem OnRefreshFinished_without_list_faults :
    OnRefreshFinished Controller.create = .error .nullDereference ∧
    run Controller.create
      [.startHandling bothFactories requestScreens, .backendUpdate [screen1, screen2],
       .refreshFinished] = .ok completedTwoScreens ∧
    run Controller.create
      [.startHandling bothFactories requestScreens, .backendUpdate [screen1, screen2],
       .refreshFinished, .refreshFinished] = .error .nullDereference := by
  exact ⟨rfl, rfl, rfl⟩

/-- C9 as amended: `OnRefreshFinished` does not test `media_list_`.  Called on a
controller that owns no list it faults on the null dereference, so it returns no
controller and emits nothing; called on a controller that owns a list it succeeds
and leaves a controller on which the next `OnRefreshFinished` faults. -/
theorem OnRefreshFinished_is_unguarded (self : Controller) :
    match self.media_list_ with
    | none =>
      OnRefreshFinished self = .error .nullDereference ∧
      step self .refreshFinished = .error .nullDereference
    | some _ =>
      ∃ fin, OnRefreshFinished self = .ok (false, fin) ∧
        OnRefreshFinished fin = .error .nullDereference ∧
        run self [.refreshFinished, .refreshFinished] = .error .nullDereference := by
  cases h : self.media_list_ with
  | none =>
    have h1 := OnRefreshFinished_empty self h
    exact ⟨h1, by simp [step, h1]⟩
  | some ml =>
    have h1 := OnRefreshFinished_active self ml h
    refine ⟨_, h1, OnRefreshFinished_empty _ rfl, ?_⟩
    simp [run, step, h1, OnRefreshFinished_empty]

/-! ## Source notifications -/

/-- C7: in every controller state and for all index arguments, each of the five
source notification handlers returns the controller unchanged (its `media_list_`
and its log of effects, hence the events already emitted), the corresponding step
does not fault, and any sequence of such notifications leaves the controller as it
was. -/
theorem source_notifications_are_inert (self : Controller) (i j : Int)
    (ns : List Step) (hns : ∀ n ∈ ns, n.isNotification = true) :
    OnSourceAdded self i = self ∧
    OnSourceRemoved self i = self ∧
    OnSourceMoved self i j = self ∧
    OnSourceNameChanged self i = self ∧
    OnSourceThumbnailChanged self i = self ∧
    step self (.sourceAdded i) = .ok self ∧
    step self (.sourceRemoved i) = .ok self ∧
    step self (.sourceMoved i j) = .ok self ∧
    step self (.sourceNameChanged i) = .ok self ∧
    step self (.sourceThumbnailChanged i) = .ok self ∧
    run self ns = .ok self :=
  ⟨rfl, rfl, rfl, rfl, rfl, rfl, rfl, rfl, rfl, rfl, run_notifications self ns hns⟩

/-- C7 after teardown: stale notifications delivered to a controller that has
completed a session leave it, and the event it emitted, as they were. -/
theorem source_notifications_are_inert_witness :
    (∀ n ∈ [Step.sourceAdded 2, .sourceRemoved (-1), .sourceMoved 0 7,
        .sourceNameChanged 1, .sourceThumbnailChanged 0], n.isNotification = true) ∧
    run completedTwoScreens [Step.sourceAdded 2, .sourceRemoved (-1), .sourceMoved 0 7,
        .sourceNameChanged 1, .sourceThumbnailChanged 0] = .ok completedTwoScreens ∧
    emitted completedTwoScreens = [⟨"handling-finished", "", [screen1, screen2]⟩] :=
  ⟨by decide,
   (source_notifications_are_inert completedTwoScreens 0 0 _ (by decide)).2.2.2.2.2.2.2.2.2.2,
   rfl⟩

/-! ## Starting a session -/

/-- C5, the claim refuted: the request `{types: ["screen"]}` passes validation and
names "screen", yet when the screen capturer factory yields null `StartHandling`
installs a media list bound to no screen capturer: the factory is called, and its
null result is passed on. -/
theorem StartHandling_passes_null_capturer_on :
    requestScreens.types = some ["screen"] ∧
    GetCapturerTypes requestScreens (some .show_windows) (some .show_screens)
      { show_screens := false, show_windows := false } =
      .ok (true, { show_screens := true, show_windows := false }) ∧
    noScreenFactory.screen = none ∧
    StartHandling noScreenFactory Controller.create requestScreens =
      .ok { media_list_ := some (startedList none none ⟨150, 150⟩)
            log := [.createScreenCapturer, .newMediaList false false,
                    .setThumbnailSize ⟨150, 150⟩, .startUpdating] } ∧
    (startedList none none ⟨150, 150⟩).screen_capturer = none := by
  exact ⟨rfl, rfl, rfl, rfl, rfl⟩

/-- C5 as amended: for a request that names at least one of "screen" and "window",
`GetCapturerTypes` returns true and `StartHandling` succeeds; it calls the screen
capturer factory once if "screen" occurs in `types` and not at all otherwise, and
likewise the window capturer factory for "window"; the media list it installs is
bound to what the screen factory yielded, handle or null, if "screen" occurs and to
no screen capturer otherwise, and likewise for "window"; at least one factory is
called.  Only membership of the two strings matters, so other strings, repetitions
and order have no influence. -/
theorem StartHandling_binds_factory_results (made : Factories) (self : Controller)
    (args : Dictionary) (types : List String) (h : args.types = some types)
    (hv : "screen" ∈ types ∨ "window" ∈ types) :
    (∃ frame, GetCapturerTypes args (some .show_windows) (some .show_screens)
      { show_screens := false, show_windows := false } = .ok (true, frame)) ∧
    ∃ fin ml, StartHandling made self args = .ok fin ∧ fin.media_list_ = some ml ∧
      (fin.log.drop self.log.length).count Effect.createScreenCapturer =
        (if "screen" ∈ types then 1 else 0) ∧
      (fin.log.drop self.log.length).count Effect.createWindowCapturer =
        (if "window" ∈ types then 1 else 0) ∧
      ml.screen_capturer = (if "screen" ∈ types then made.screen else none) ∧
      ml.window_capturer = (if "window" ∈ types then made.window else none) ∧
      0 < (fin.log.drop self.log.length).count Effect.createScreenCapturer +
        (fin.log.drop self.log.length).count Effect.createWindowCapturer ∧
      Effect.newMediaList ml.screen_capturer.isSome ml.window_capturer.isSome ∈
        fin.log.drop self.log.length := by
  constructor
  · rw [GetCapturerTypes_locals, h]
    exact ⟨_, rfl⟩
  · refine ⟨_, _, StartHandling_accepted made self args types h, rfl, ?_, ?_, ?_, ?_, ?_,
      ?_⟩ <;>
      by_cases hs : "screen" ∈ types <;> by_cases hw : "window" ∈ types <;>
      cases hm : self.media_list_ <;>
      simp [hs, hw, hm, startedEffects, startedList, passedHandle, List.count_cons] <;>
      simp [hs, hw] at hv

/-- C5 as amended, at the request
`{types: ["window", "tab", "window"], thumbnailSize: 64x64}` with a screen capturer
factory that yields null. -/
theorem StartHandling_binds_factory_results_witness :
    requestSmallWindows.types = some ["window", "tab", "window"] ∧
    ("screen" ∈ ["window", "tab", "window"] ∨ "window" ∈ ["window", "tab", "window"]) ∧
    ∃ fin ml, StartHandling noScreenFactory Controller.create requestSmallWindows =
        .ok fin ∧
      fin.media_list_ = some ml ∧
      (fin.log.drop Controller.create.log.length).count Effect.createScreenCapturer =
        (if "screen" ∈ ["window", "tab", "window"] then 1 else 0) ∧
      (fin.log.drop Controller.create.log.length).count Effect.createWindowCapturer =
        (if "window" ∈ ["window", "tab", "window"] then 1 else 0) ∧
      ml.screen_capturer =
        (if "screen" ∈ ["window", "tab", "window"] then noScreenFactory.screen else none) ∧
      ml.window_capturer =
        (if "window" ∈ ["window", "tab", "window"] then noScreenFactory.window else none) ∧
      0 < (fin.log.drop Controller.create.log.length).count Effect.createScreenCapturer +
        (fin.log.drop Controller.create.log.length).count Effect.createWindowCapturer ∧
      Effect.newMediaList ml.screen_capturer.isSome ml.window_capturer.isSome ∈
        fin.log.drop Controller.create.log.length :=
  ⟨rfl, by decide, (StartHandling_binds_factory_results noScreenFactory Controller.create
    requestSmallWindows ["window", "tab", "window"] rfl (by decide)).2⟩

/-- C6: for a request whose `types` field is readable, `StartHandling` applies to the
new media list the size 150x150 when the dictionary yields no `thumbnailSize`, and
the size read from the dictionary whenever it yields one; that size is what
`SetThumbnailSize` is called with and what the list holds afterwards. -/
theorem StartHandling_applies_thumbnail_size (made : Factories) (self : Controller)
    (args : Dictionary) (types : List String) (h : args.types = some types) :
    ∃ fin ml, StartHandling made self args = .ok fin ∧ fin.media_list_ = some ml ∧
      ml.thumbnail_size = some (match args.thumbnailSize with
        | none => ⟨150, 150⟩
        | some size => size) ∧
      (∀ size, Effect.setThumbnailSize size ∈ fin.log.drop self.log.length ↔
        size = (match args.thumbnailSize with
          | none => ⟨150, 150⟩
          | some size => size)) := by
  refine ⟨_, _, StartHandling_accepted made self args types h, rfl, ?_, ?_⟩
  · cases ht : args.thumbnailSize <;>
      simp [startedList, requestedSize, ht, kThumbnailWidth, kThumbnailHeight]
  · intro size
    cases ht : args.thumbnailSize <;>
      by_cases hs : "screen" ∈ types <;> by_cases hw : "window" ∈ types <;>
      cases hm : self.media_list_ <;>
      simp [hs, hw, hm, startedEffects, requestedSize, ht, kThumbnailWidth,
        kThumbnailHeight]

/-- C6 at a request without `thumbnailSize` and at one asking for 64x64. -/
theorem StartHandling_applies_thumbnail_size_witness :
    (requestScreens.types = some ["screen"] ∧ requestScreens.thumbnailSize = none ∧
      ∃ fin ml, StartHandling bothFactories Controller.create requestScreens = .ok fin ∧
        fin.media_list_ = some ml ∧ ml.thumbnail_size = some ⟨150, 150⟩) ∧
    (requestSmallWindows.types = some ["window", "tab", "window"] ∧
      requestSmallWindows.thumbnailSize = some ⟨64, 64⟩ ∧
      ∃ fin ml, StartHandling noScreenFactory activeTwoScreens requestSmallWindows =
          .ok fin ∧
        fin.media_list_ = some ml ∧ ml.thumbnail_size = some ⟨64, 64⟩) := by
  refine ⟨⟨rfl, rfl, ?_⟩, ⟨rfl, rfl, ?_⟩⟩
  · obtain ⟨fin, ml, h1, h2, h3, _⟩ :=
      StartHandling_applies_thumbnail_size bothFactories Controller.create
        requestScreens _ rfl
    exact ⟨fin, ml, h1, h2, h3⟩
  · obtain ⟨fin, ml, h1, h2, h3, _⟩ :=
      StartHandling_applies_thumbnail_size noScreenFactory activeTwoScreens
        requestSmallWindows _ rfl
    exact ⟨fin, ml, h1, h2, h3⟩

/-! ## Sessions -/

theorem filterMap_toEvent_getSource (l : List Nat) :
    (l.map Effect.getSource).filterMap Effect.toEvent = [] := by
  induction l with
  | nil => rfl
  | cons i l ih => simp [Effect.toEvent]

theorem emitsOnceAtRefresh_of_types (made : Factories) (self : Controller)
    (args : Dictionary) (ns : List Step) (hns : ∀ n ∈ ns, n.isBackendActivity = true)
    (types : List String) (h : args.types = some types) :
    emitsOnceAtRefresh made self args ns := by
  have hstart := StartHandling_accepted made self args types h
  obtain ⟨mid, hrun, hlog, _, hown⟩ := run_backendActivity
    { media_list_ := some (startedList
        (passedHandle (decide ("screen" ∈ types)) made.screen)
        (passedHandle (decide ("window" ∈ types)) made.window) (requestedSize args))
      log := self.log ++ startedEffects (decide ("screen" ∈ types))
        (decide ("window" ∈ types))
        (passedHandle (decide ("screen" ∈ types)) made.screen).isSome
        (passedHandle (decide ("window" ∈ types)) made.window).isSome
        self.media_list_.isSome (requestedSize args) }
    ns hns
  obtain ⟨live, hlive⟩ : ∃ live, mid.media_list_ = some live := by
    obtain ⟨sources, hsources⟩ := hown (startedList
      (passedHandle (decide ("screen" ∈ types)) made.screen)
      (passedHandle (decide ("window" ∈ types)) made.window) (requestedSize args))
      ⟨[], rfl⟩
    exact ⟨_, hsources⟩
  obtain ⟨fin, hfin, hfinlog⟩ : ∃ fin, OnRefreshFinished mid = .ok (false, fin) ∧
      fin.log = mid.log ++ (List.range live.GetSourceCount).map Effect.getSource ++
        [Effect.deleteMediaList, Effect.emit "handling-finished" "" live.sources] :=
    ⟨_, OnRefreshFinished_active mid live hlive, rfl⟩
  refine ⟨mid, live, fin, ?_, ?_, hlive, ?_, ?_⟩
  · simp only [run, step, hstart]
    exact hrun
  · simp [emitted, hlog, List.filterMap_append, emitted_startedEffects]
  · simp only [run, step, hstart]
    rw [run_append, hrun]
    simp only [run, step, hfin]
  · simp [emitted, hfinlog, hlog, List.filterMap_append, emitted_startedEffects,
      filterMap_toEvent_getSource, Effect.toEvent]

theorem emitsOnceAtStart_of_no_types (made : Factories) (self : Controller)
    (args : Dictionary) (ns : List Step) (hns : ∀ n ∈ ns, n.isBackendActivity = true)
    (h : args.types = none) :
    emitsOnceAtStart made self args ns := by
  have hstart := StartHandling_rejected made self args h
  obtain ⟨fin, hrun, hlog, _, _⟩ := run_backendActivity
    (Emit self "handling-finished" "Invalid options." []) ns hns
  refine ⟨_, fin, ?_, emitted_Emit self _ _ _, ?_, ?_⟩
  · simp only [run, step, hstart]
  · simp only [run, step, hstart]
    exact hrun
  · simp [emitted, hlog]

/-- C4: let `ns` consist of source notifications (with any indices) and backend
changes to the list, and let the factories yield anything.  For every request with
at least one valid type the session `startHandling`, `ns`, `refreshFinished` emits
exactly one `handling-finished` event over the whole trace, at the `refreshFinished`
step, with the empty error message.  For every request whatsoever exactly one event
is emitted: that success event when the `types` field is readable, and otherwise a
failure event at the `startHandling` step, which carries the empty source list. -/
theorem exactly_one_terminal_event (made : Factories) (self : Controller)
    (args : Dictionary) (ns : List Step)
    (hns : ∀ n ∈ ns, n.isBackendActivity = true) :
    (hasValidType args = true → emitsOnceAtRefresh made self args ns) ∧
    (match args.types with
     | some _ => emitsOnceAtRefresh made self args ns
     | none => emitsOnceAtStart made self args ns) := by
  constructor
  · intro hv
    cases h : args.types with
    | none => simp [hasValidType, h] at hv
    | some types => exact emitsOnceAtRefresh_of_types made self args ns hns types h
  · cases h : args.types with
    | none => exact emitsOnceAtStart_of_no_types made self args ns hns h
    | some types => exact emitsOnceAtRefresh_of_types made self args ns hns types h

/-- C4 at the request `{types: ["screen"]}` followed by backend activity, and at a
request without a `types` field. -/
theorem exactly_one_terminal_event_witness :
    (∀ n ∈ [Step.backendUpdate [screen2], .sourceAdded 0,
        .backendUpdate [screen1, screen2], .sourceAdded 0, .sourceMoved 1 0,
        .sourceThumbnailChanged (-4)], n.isBackendActivity = true) ∧
    hasValidType requestScreens = true ∧
    emitsOnceAtRefresh bothFactories Controller.create requestScreens
      [Step.backendUpdate [screen2], .sourceAdded 0,
        .backendUpdate [screen1, screen2], .sourceAdded 0, .sourceMoved 1 0,
        .sourceThumbnailChanged (-4)] ∧
    requestNoTypes.types = none ∧
    emitsOnceAtStart noScreenFactory Controller.create requestNoTypes [] :=
  ⟨by decide, rfl,
   (exactly_one_terminal_event bothFactories Controller.create requestScreens _
     (by decide)).1 rfl,
   rfl,
   (exactly_one_terminal_event noScreenFactory Controller.create requestNoTypes []
     (by simp)).2⟩

end DesktopCapturer
